import Mathlib

/-!
# Shallow embedding of the `website_checker` crate

This file embeds the core of the repository's `website_checker` crate
(`src/validation.rs`, `src/status.rs`, `src/concurrent.rs`, `src/stats.rs`)
into Lean and proves the specification claims about it.

Modelling conventions:
* Rust `String`/`&str` values are Lean `String`s; character-level scanning
  works on `String.data : List Char`.  The model covers the ASCII fragment:
  Rust's byte positions coincide with char positions there, and Rust's
  `char::is_alphanumeric` coincides with ASCII alphanumeric.
* The external HTTP client (`ureq`) is a collaborator: one GET attempt is an
  abstract `RequestOutcome` (the three-way result the code matches on:
  `Ok(resp)`, `Err(Error::Status(code, resp))`, other `Err`).  A response
  carries its status, its header list, and the result of reading its body
  (capped at `max_body_bytes` and lossily decoded — both performed by the
  collaborator, so the model sees an `Except` of the decoded text).
* The external time source is a collaborator: an `Except String String`.
* Durations are elapsed milliseconds as `Nat`; the `f64` statistics fields
  are modelled as exact rationals `ℚ`.
* Concurrency: the dispatcher places each result into the slot of its
  original index, so the observable value of `check_many` is the per-index
  probe result; the model is that function of the network oracle
  `net : Nat → Nat → RequestOutcome × Nat` (target index, attempt number ↦
  outcome and elapsed time).
-/

namespace WebsiteChecker

/-- Rust `u8::is_ascii_alphanumeric` (on the ASCII fragment, one char = one
byte): `0-9`, `A-Z`, `a-z`. -/
def isAsciiAlphanumeric (c : Char) : Bool :=
  (('0' ≤ c && c ≤ '9') || ('A' ≤ c && c ≤ 'Z') || ('a' ≤ c && c ≤ 'z'))

/-- Rust `char::is_alphanumeric`, restricted to the ASCII fragment the model
covers, where it agrees with `is_ascii_alphanumeric`. -/
def isAlphanumeric (c : Char) : Bool := isAsciiAlphanumeric c

/-- Rust `str::starts_with` on the char level. -/
def startsWithStr (s pre : String) : Bool := pre.data.isPrefixOf s.data

/-- Rust `str::contains` (plain substring search) on the char level:
some suffix of `hay` has `needle` as a prefix. -/
def containsSub : List Char → List Char → Bool
  | hay, needle =>
    needle.isPrefixOf hay ||
      match hay with
      | [] => false
      | _ :: t => containsSub t needle

/-- Rust `char::to_ascii_lowercase` mapped over a string
(`str::to_ascii_lowercase`). -/
def toAsciiLower (s : String) : String :=
  String.mk (s.data.map Char.toLower)

/-- `validation.rs` — `struct Config` (validation policy). -/
structure Config where
  https_required : Bool
  required_headers : List String
  content_type_allow : List String
  header_equals : List (String × String)
  header_contains : List (String × String)
  max_body_bytes : Nat
  body_contains_all : List String
  body_contains_any : List String
  deriving DecidableEq

/-- `validation.rs` — `impl Default for Config`. -/
def Config.default : Config where
  https_required := true
  required_headers := ["Content-Type"]
  content_type_allow := ["text/html", "application/json"]
  header_equals := []
  header_contains := []
  max_body_bytes := 64 * 1024
  body_contains_all := []
  body_contains_any := []

/-- `validation.rs` — `struct ValidationReport`. -/
structure ValidationReport where
  header_ok : Bool
  body_ok : Bool
  https_policy_ok : Bool
  issues : List String
  deriving DecidableEq

/-- `#[derive(Default)]` for `ValidationReport`: all flags false, no issues. -/
def ValidationReport.default : ValidationReport where
  header_ok := false
  body_ok := false
  https_policy_ok := false
  issues := []

/-- `ValidationReport::overall_ok`. -/
def ValidationReport.overall_ok (r : ValidationReport) : Bool :=
  r.header_ok && r.body_ok && r.https_policy_ok

deriving instance DecidableEq for Except

/-- An HTTP response as the external client hands it to the core: status
code, header list, and the outcome of reading its (capped, lossily decoded)
body text — `Except.error e` models a mid-read I/O failure with message `e`. -/
structure Response where
  status : Nat
  headers : List (String × String)
  body : Except String String
  deriving DecidableEq

/-- `ureq::Response::header`: case-insensitive lookup of the first header
with the given name. -/
def Response.header (resp : Response) (name : String) : Option String :=
  (resp.headers.find? (fun p => toAsciiLower p.1 == toAsciiLower name)).map Prod.snd

/-- `validation.rs` — `enforce_https_policy`. -/
def enforce_https_policy (url : String) (report : ValidationReport) (cfg : Config) :
    ValidationReport :=
  if !cfg.https_required then
    { report with https_policy_ok := true }
  else if startsWithStr url "https://" then
    { report with https_policy_ok := true }
  else
    { report with
      https_policy_ok := false
      issues := report.issues ++ ["HTTPS required by policy, but URL is not https"] }

/-- `validation.rs` — `validate_headers`.  The running pair is Rust's
`(ok, report.issues)`; each failed check flips `ok` to `false` and pushes
its issue, and every check runs. -/
def validate_headers (resp : Response) (cfg : Config) (report : ValidationReport) :
    ValidationReport :=
  let st : Bool × List String :=
    cfg.required_headers.foldl (fun st h =>
      match resp.header h with
      | none => (false, st.2 ++ ["Missing header: " ++ h])
      | some _ => st) (true, report.issues)
  let st :=
    if !cfg.content_type_allow.isEmpty then
      match resp.header "Content-Type" with
      | some ct =>
        let lower := toAsciiLower ct
        if !cfg.content_type_allow.any (fun allowed =>
            startsWithStr lower (toAsciiLower allowed)) then
          (false, st.2 ++ ["Content-Type not allowed: " ++ ct])
        else st
      | none => (false, st.2 ++ ["Missing header: Content-Type"])
    else st
  let st :=
    cfg.header_equals.foldl (fun st p =>
      match resp.header p.1 with
      | some v =>
        if v == p.2 then st
        else (false, st.2 ++
          ["Header " ++ p.1 ++ " mismatch: got '" ++ v ++ "', expected '" ++ p.2 ++ "'"])
      | none => (false, st.2 ++ ["Missing header: " ++ p.1])) st
  let st :=
    cfg.header_contains.foldl (fun st p =>
      match resp.header p.1 with
      | some v =>
        if containsSub v.data p.2.data then st
        else (false, st.2 ++
          ["Header " ++ p.1 ++ " does not contain '" ++ p.2 ++ "': got '" ++ v ++ "'"])
      | none => (false, st.2 ++ ["Missing header: " ++ p.1])) st
  { report with header_ok := st.1, issues := st.2 }

/-- `validation.rs` — `contains_token`, the scanning loop: at each position
check whether the needle occurs there with a non-alphanumeric (or edge) char
on each side; `prevAlnum` says whether the char just before the current
position is ASCII alphanumeric (`false` at the start of the text). -/
def tokenScan (needle : List Char) : Bool → List Char → Bool
  | prevAlnum, t =>
    (needle.isPrefixOf t && !prevAlnum &&
      (match t.drop needle.length with
       | [] => true
       | c :: _ => !isAsciiAlphanumeric c)) ||
    match t with
    | [] => false
    | c :: rest => tokenScan needle (isAsciiAlphanumeric c) rest

/-- `validation.rs` — `contains_token`. -/
def contains_token (text needle : String) : Bool :=
  if needle.data.isEmpty then true
  else if !needle.data.all isAlphanumeric then containsSub text.data needle.data
  else tokenScan needle.data false text.data

/-- Rust `{:?}` rendering of a `Vec<String>` (for strings without quote or
backslash chars, which is all the code ever formats). -/
def formatDebugList (xs : List String) : String :=
  "[" ++ go xs ++ "]"
where
  go : List String → String
    | [] => ""
    | [s] => "\"" ++ s ++ "\""
    | s :: rest => "\"" ++ s ++ "\", " ++ go rest

/-- `validation.rs` — `check_body_text`. -/
def check_body_text (text : String) (cfg : Config) : Bool × List String :=
  let issues :=
    cfg.body_contains_all.foldl (fun acc needle =>
      if !contains_token text needle then
        acc ++ ["Body missing required text: '" ++ needle ++ "'"]
      else acc) []
  let ok := issues.isEmpty
  if !cfg.body_contains_any.isEmpty then
    let any_hit := cfg.body_contains_any.any (fun n => contains_token text n)
    let issues :=
      if !any_hit then
        issues ++ ["Body did not contain ANY of: " ++ formatDebugList cfg.body_contains_any]
      else issues
    (ok && any_hit, issues)
  else
    (ok, issues)

/-- `validation.rs` — `validate_body`: consume the (capped) body read; a read
error records one issue and skips the content rules. -/
def validate_body (resp : Response) (cfg : Config) (report : ValidationReport) :
    ValidationReport :=
  match resp.body with
  | Except.error e =>
    { report with
      body_ok := false
      issues := report.issues ++ ["Failed to read response body: " ++ e] }
  | Except.ok text =>
    let r := check_body_text text cfg
    { report with body_ok := r.1, issues := report.issues ++ r.2 }

/-- `validation.rs` — `validate_response`. -/
def validate_response (resp : Response) (cfg : Config) (report : ValidationReport) :
    ValidationReport :=
  let report := validate_headers resp cfg report
  let need_body := !cfg.body_contains_all.isEmpty || !cfg.body_contains_any.isEmpty
  if need_body then validate_body resp cfg report
  else { report with body_ok := true }

/-- `status.rs` — `enum CheckStatus`. -/
inductive CheckStatus where
  | Success (code : Nat)
  | HttpError (code : Nat)
  | Transport (msg : String)
  deriving DecidableEq

def CheckStatus.isSuccess : CheckStatus → Bool
  | .Success _ => true
  | _ => false

def CheckStatus.isHttpError : CheckStatus → Bool
  | .HttpError _ => true
  | _ => false

def CheckStatus.isTransport : CheckStatus → Bool
  | .Transport _ => true
  | _ => false

/-- `status.rs` — `struct WebsiteStatus`; `response_time` is the elapsed
duration in milliseconds. -/
structure WebsiteStatus where
  url : String
  status : CheckStatus
  response_time : Nat
  timestamp_utc : String
  validation : ValidationReport
  deriving DecidableEq

/-- One HTTP GET attempt as the external client (`ureq`) reports it: the
three-way result `status.rs` matches on.  `ok` is `Ok(resp)` (a response the
client classifies as successful, i.e. 2xx), `errStatus` is
`Err(ureq::Error::Status(code, resp))` (a real response with a non-2xx
status), `errTransport` is any other `Err` (no interpretable response). -/
inductive RequestOutcome where
  | ok (resp : Response)
  | errStatus (code : Nat) (resp : Response)
  | errTransport (msg : String)
  deriving DecidableEq

/-- `status.rs` — `WebsiteStatus::do_request`.  The network call itself is
external: its result `outcome` and the measured wall-clock time `elapsed`
are inputs of the model. -/
def do_request (url : String) (cfg : Config) (outcome : RequestOutcome)
    (elapsed : Nat) : CheckStatus × Nat × ValidationReport :=
  let report := enforce_https_policy url ValidationReport.default cfg
  match outcome with
  | RequestOutcome.ok resp =>
    let report := validate_response resp cfg report
    (CheckStatus.Success resp.status, elapsed, report)
  | RequestOutcome.errStatus code resp =>
    let report := validate_response resp cfg report
    (CheckStatus.HttpError code, elapsed, report)
  | RequestOutcome.errTransport e =>
    let report := { report with
      header_ok := false
      body_ok := false
      issues := report.issues ++ ["Transport error: " ++ e] }
    (CheckStatus.Transport e, elapsed, report)

/-- `status.rs` — `WebsiteStatus::request_with_timestamp`: runs the request
and attaches the pre-fetched timestamp verbatim (no time-source call). -/
def request_with_timestamp (url : String) (cfg : Config)
    (outcome : RequestOutcome) (elapsed : Nat) (timestamp_utc : String) :
    WebsiteStatus :=
  let r := do_request url cfg outcome elapsed
  { url := url
    status := r.1
    response_time := r.2.1
    timestamp_utc := timestamp_utc
    validation := r.2.2 }

/-- `concurrent.rs` — the worker's retry loop in `check_many`.  `att a` is
the outcome and elapsed time of the (a+1)-th network attempt for this
target; `attempts` is Rust's `attempts` counter (retries performed so far)
and `remaining = max_retries - attempts` is how many retries are still
allowed, so Rust's guard `attempts < max_retries` is `remaining > 0`. -/
def retryFrom (url : String) (cfg : Config) (ts : String)
    (att : Nat → RequestOutcome × Nat) : Nat → Nat → WebsiteStatus
  | attempts, remaining =>
    let o := att attempts
    let ws := request_with_timestamp url cfg o.1 o.2 ts
    match remaining, ws.status with
    | Nat.succ r, CheckStatus.Transport _ => retryFrom url cfg ts att (attempts + 1) r
    | _, _ => ws

/-- Number of attempts the retry loop performs (its iteration count). -/
def attemptsUsed (url : String) (cfg : Config) (ts : String)
    (att : Nat → RequestOutcome × Nat) : Nat → Nat → Nat
  | attempts, remaining =>
    let o := att attempts
    let ws := request_with_timestamp url cfg o.1 o.2 ts
    match remaining, ws.status with
    | Nat.succ r, CheckStatus.Transport _ =>
      1 + attemptsUsed url cfg ts att (attempts + 1) r
    | _, _ => 1

/-- One target's end-to-end check inside a worker: the retry loop started
with `attempts = 0` and the full retry budget. -/
def check_one (url : String) (cfg : Config) (ts : String)
    (att : Nat → RequestOutcome × Nat) (max_retries : Nat) : WebsiteStatus :=
  retryFrom url cfg ts att 0 max_retries

/-- `concurrent.rs` — the single batch timestamp:
`fetch_network_time_utc().unwrap_or_else(|_| "unknown".to_string())`. -/
def batchTimestamp : Except String String → String
  | Except.ok s => s
  | Except.error _ => "unknown"

/-- `concurrent.rs` — `check_many`.  The time source's one result is the
input `timeRes`; the network oracle `net i a` gives target `i`'s (a+1)-th
attempt.  Worker threads only schedule the jobs; each result lands in the
slot of its original index (`out[idx] = Some(ws)`), so the returned list is
the per-index probe result.  `workers` (clamped in the source to
`max(1, min(workers, n))`) affects scheduling only, not the value. -/
def check_many (urls : List String) (workers max_retries : Nat)
    (timeRes : Except String String) (net : Nat → Nat → RequestOutcome × Nat) :
    List WebsiteStatus :=
  if urls.length = 0 then []
  else
    let _ := max 1 (min workers urls.length)
    let cfg := Config.default
    let batch_ts := batchTimestamp timeRes
    urls.enum.map (fun p => check_one p.2 cfg batch_ts (net p.1) max_retries)

/-- `stats.rs` — `struct Stats`; the `f64` fields are modelled as exact
rationals. -/
structure Stats where
  total : Nat
  successes : Nat
  http_errors : Nat
  transport_errors : Nat
  avg_response_ms : ℚ
  uptime_pct : ℚ
  deriving DecidableEq

/-- `stats.rs` — `Stats::compute`. -/
def Stats.compute (results : List WebsiteStatus) : Stats :=
  let total := results.length
  if total = 0 then
    { total := 0
      successes := 0
      http_errors := 0
      transport_errors := 0
      avg_response_ms := 0
      uptime_pct := 0 }
  else
    let successes := results.countP (fun r => r.status.isSuccess)
    let http_errors := results.countP (fun r => r.status.isHttpError)
    let transport_errors := results.countP (fun r => r.status.isTransport)
    let total_ms := (results.map (fun r => r.response_time)).sum
    { total := total
      successes := successes
      http_errors := http_errors
      transport_errors := transport_errors
      avg_response_ms := (total_ms : ℚ) / (total : ℚ)
      uptime_pct := (successes : ℚ) * 100 / (total : ℚ) }

/-! ## Helper lemmas -/

theorem request_with_timestamp_url (url : String) (cfg : Config)
    (o : RequestOutcome) (e : Nat) (ts : String) :
    (request_with_timestamp url cfg o e ts).url = url := rfl

theorem request_with_timestamp_ts (url : String) (cfg : Config)
    (o : RequestOutcome) (e : Nat) (ts : String) :
    (request_with_timestamp url cfg o e ts).timestamp_utc = ts := rfl

theorem retryFrom_stop (url : String) (cfg : Config) (ts : String)
    (att : Nat → RequestOutcome × Nat) (attempts remaining : Nat)
    (h : ∀ r msg, remaining = Nat.succ r →
      (request_with_timestamp url cfg (att attempts).1 (att attempts).2 ts).status =
        CheckStatus.Transport msg → False) :
    retryFrom url cfg ts att attempts remaining =
      request_with_timestamp url cfg (att attempts).1 (att attempts).2 ts :=
  retryFrom.eq_2 url cfg ts att attempts remaining h

theorem retryFrom_step (url : String) (cfg : Config) (ts : String)
    (att : Nat → RequestOutcome × Nat) (attempts r : Nat) (msg : String)
    (h : (request_with_timestamp url cfg (att attempts).1 (att attempts).2 ts).status =
      CheckStatus.Transport msg) :
    retryFrom url cfg ts att attempts (Nat.succ r) =
      retryFrom url cfg ts att (attempts + 1) r :=
  retryFrom.eq_1 url cfg ts att attempts r msg h

theorem retryFrom_url (url : String) (cfg : Config) (ts : String)
    (att : Nat → RequestOutcome × Nat) :
    ∀ remaining attempts, (retryFrom url cfg ts att attempts remaining).url = url := by
  intro remaining
  induction remaining with
  | zero =>
    intro a
    rw [retryFrom_stop]
    · rfl
    · intro r s hr _
      exact absurd hr (by omega)
  | succ r ih =>
    intro a
    rcases h : (request_with_timestamp url cfg (att a).1 (att a).2 ts).status with c | c | m
    · rw [retryFrom_stop]
      · rfl
      · intro r' s _ hs
        rw [h] at hs
        cases hs
    · rw [retryFrom_stop]
      · rfl
      · intro r' s _ hs
        rw [h] at hs
        cases hs
    · rw [retryFrom_step url cfg ts att a r m h]
      exact ih (a + 1)

theorem retryFrom_ts (url : String) (cfg : Config) (ts : String)
    (att : Nat → RequestOutcome × Nat) :
    ∀ remaining attempts,
      (retryFrom url cfg ts att attempts remaining).timestamp_utc = ts := by
  intro remaining
  induction remaining with
  | zero =>
    intro a
    rw [retryFrom_stop]
    · rfl
    · intro r s hr _
      exact absurd hr (by omega)
  | succ r ih =>
    intro a
    rcases h : (request_with_timestamp url cfg (att a).1 (att a).2 ts).status with c | c | m
    · rw [retryFrom_stop]
      · rfl
      · intro r' s _ hs
        rw [h] at hs
        cases hs
    · rw [retryFrom_stop]
      · rfl
      · intro r' s _ hs
        rw [h] at hs
        cases hs
    · rw [retryFrom_step url cfg ts att a r m h]
      exact ih (a + 1)

theorem attemptsUsed_stop (url : String) (cfg : Config) (ts : String)
    (att : Nat → RequestOutcome × Nat) (attempts remaining : Nat)
    (h : ∀ r msg, remaining = Nat.succ r →
      (request_with_timestamp url cfg (att attempts).1 (att attempts).2 ts).status =
        CheckStatus.Transport msg → False) :
    attemptsUsed url cfg ts att attempts remaining = 1 :=
  attemptsUsed.eq_2 url cfg ts att attempts remaining h

theorem attemptsUsed_step (url : String) (cfg : Config) (ts : String)
    (att : Nat → RequestOutcome × Nat) (attempts r : Nat) (msg : String)
    (h : (request_with_timestamp url cfg (att attempts).1 (att attempts).2 ts).status =
      CheckStatus.Transport msg) :
    attemptsUsed url cfg ts att attempts (Nat.succ r) =
      1 + attemptsUsed url cfg ts att (attempts + 1) r :=
  attemptsUsed.eq_1 url cfg ts att attempts r msg h

theorem retryFrom_all_transport (url : String) (cfg : Config) (ts : String)
    (att : Nat → RequestOutcome × Nat) :
    ∀ (remaining attempts : Nat),
      (∀ k, k ≤ attempts + remaining →
        (request_with_timestamp url cfg (att k).1 (att k).2 ts).status.isTransport = true) →
      retryFrom url cfg ts att attempts remaining =
        request_with_timestamp url cfg (att (attempts + remaining)).1
          (att (attempts + remaining)).2 ts ∧
      attemptsUsed url cfg ts att attempts remaining = remaining + 1 := by
  intro remaining
  induction remaining with
  | zero =>
    intro a _
    constructor
    · rw [retryFrom_stop]
      · rw [Nat.add_zero]
      · intro r s hr _
        exact absurd hr (by omega)
    · rw [attemptsUsed_stop]
      intro r s hr _
      exact absurd hr (by omega)
  | succ r ih =>
    intro a h
    rcases hst : (request_with_timestamp url cfg (att a).1 (att a).2 ts).status with c | c | m
    · have ht := h a (by omega)
      rw [hst] at ht
      exact absurd ht (by simp [CheckStatus.isTransport])
    · have ht := h a (by omega)
      rw [hst] at ht
      exact absurd ht (by simp [CheckStatus.isTransport])
    · have ih' := ih (a + 1) (fun k hk => h k (by omega))
      have hidx : a + 1 + r = a + (r + 1) := by omega
      constructor
      · rw [retryFrom_step url cfg ts att a r m hst, ih'.1, hidx]
      · rw [attemptsUsed_step url cfg ts att a r m hst, ih'.2]
        omega

/-! ## Claim C1 — output order equals input order -/

/-- C1: `check_many` returns one result per input URL, in input order: the
result at index i has `url` equal to the input URL at index i (so mapping
`url` over the output reproduces the input list), and the empty input list
yields the empty output list. -/
theorem check_many_order (urls : List String) (workers max_retries : Nat)
    (timeRes : Except String String) (net : Nat → Nat → RequestOutcome × Nat) :
    (check_many urls workers max_retries timeRes net).map (fun r => r.url) = urls ∧
    check_many [] workers max_retries timeRes net = [] := by
  constructor
  · unfold check_many
    split
    · next h =>
      rw [List.length_eq_zero] at h
      rw [h]
      rfl
    · rw [List.map_map]
      have hcomp : ((fun r => r.url) ∘ fun p : Nat × String =>
          check_one p.2 Config.default (batchTimestamp timeRes) (net p.1) max_retries)
          = fun p : Nat × String => p.2 := by
        funext p
        exact retryFrom_url p.2 Config.default (batchTimestamp timeRes) (net p.1)
          max_retries 0
      rw [hcomp]
      exact List.enum_map_snd urls
  · rfl

/-! ## Claim C2 — retry policy -/

/-- C2: a target is re-attempted iff the current attempt's outcome is
`Transport` and the number of prior attempts is below `max_retries` (the
loop's remaining budget `remaining = max_retries - attempts` is positive);
a `Success` or `HttpError` outcome is final immediately, and so is a
`Transport` with an exhausted budget; consequently a target whose every
attempt yields `Transport` is attempted exactly `max_retries + 1` times and
the returned result is the last attempt's result. -/
theorem retry_policy (url : String) (cfg : Config) (ts : String)
    (att : Nat → RequestOutcome × Nat) (max_retries : Nat) :
    (∀ attempts remaining,
      (request_with_timestamp url cfg (att attempts).1 (att attempts).2 ts).status.isTransport
        = false →
      retryFrom url cfg ts att attempts remaining =
        request_with_timestamp url cfg (att attempts).1 (att attempts).2 ts) ∧
    (∀ attempts r msg,
      (request_with_timestamp url cfg (att attempts).1 (att attempts).2 ts).status =
        CheckStatus.Transport msg →
      retryFrom url cfg ts att attempts (r + 1) = retryFrom url cfg ts att (attempts + 1) r) ∧
    (∀ attempts,
      retryFrom url cfg ts att attempts 0 =
        request_with_timestamp url cfg (att attempts).1 (att attempts).2 ts) ∧
    ((∀ k, k ≤ max_retries →
        (request_with_timestamp url cfg (att k).1 (att k).2 ts).status.isTransport = true) →
      check_one url cfg ts att max_retries =
        request_with_timestamp url cfg (att max_retries).1 (att max_retries).2 ts ∧
      attemptsUsed url cfg ts att 0 max_retries = max_retries + 1) := by
  refine ⟨?_, ?_, ?_, ?_⟩
  · intro a remaining hnt
    rw [retryFrom_stop]
    intro r s _ hs
    rw [hs] at hnt
    exact absurd hnt (by simp [CheckStatus.isTransport])
  · intro a r msg hst
    exact retryFrom_step url cfg ts att a r msg hst
  · intro a
    rw [retryFrom_stop]
    intro r s hr _
    exact absurd hr (by omega)
  · intro h
    have := retryFrom_all_transport url cfg ts att max_retries 0
      (fun k hk => h k (by omega))
    simpa using this

/-- Witness for C2: an oracle whose every attempt is a transport failure,
with a retry budget of 2, is attempted exactly 3 times and the last
attempt's result is returned. -/
theorem retry_policy_witness :
    check_one "http://a" Config.default "unknown"
      (fun _ => (RequestOutcome.errTransport "boom", 5)) 2 =
      request_with_timestamp "http://a" Config.default
        (RequestOutcome.errTransport "boom") 5 "unknown" ∧
    attemptsUsed "http://a" Config.default "unknown"
      (fun _ => (RequestOutcome.errTransport "boom", 5)) 0 2 = 3 := by
  have h := (retry_policy "http://a" Config.default "unknown"
    (fun _ => (RequestOutcome.errTransport "boom", 5)) 2).2.2.2 (fun k _ => rfl)
  exact ⟨h.1, h.2⟩

/-! ## Claim C9 — one batch timestamp -/

/-- C9: the batch timestamp is computed once, before any work is dispatched;
a time-source failure substitutes the literal "unknown" and the batch still
runs to completion (one result per URL); and every result carries that
single timestamp string verbatim — the probe (`request_with_timestamp`)
takes the timestamp as an argument and performs no time-source call. -/
theorem check_many_timestamp (urls : List String) (workers max_retries : Nat)
    (timeRes : Except String String) (net : Nat → Nat → RequestOutcome × Nat) :
    (∀ ws ∈ check_many urls workers max_retries timeRes net,
      ws.timestamp_utc = batchTimestamp timeRes) ∧
    (∀ e, batchTimestamp (Except.error e) = "unknown") ∧
    (∀ e, (check_many urls workers max_retries (Except.error e) net).length =
      urls.length) := by
  refine ⟨?_, fun _ => rfl, ?_⟩
  · intro ws hmem
    unfold check_many at hmem
    split at hmem
    · simp at hmem
    · rw [List.mem_map] at hmem
      obtain ⟨p, _, rfl⟩ := hmem
      exact retryFrom_ts p.2 Config.default (batchTimestamp timeRes) (net p.1)
        max_retries 0
  · intro e
    unfold check_many
    split
    · next h =>
      rw [List.length_eq_zero] at h
      rw [h]
      rfl
    · rw [List.length_map, List.enum_length]

/-- Witness for C9: one http target, a failed time source, a transport-only
network — the single result carries the sentinel timestamp "unknown". -/
theorem check_many_timestamp_witness :
    (check_many ["http://a"] 1 0 (Except.error "down")
      (fun _ _ => (RequestOutcome.errTransport "boom", 5))).map
        (fun r => r.timestamp_utc) = ["unknown"] := by
  have h := check_many_timestamp ["http://a"] 1 0 (Except.error "down")
    (fun _ _ => (RequestOutcome.errTransport "boom", 5))
  have hmem :
      (⟨"http://a", CheckStatus.Transport "boom", 5, "unknown",
        ⟨false, false, false,
          ["HTTPS required by policy, but URL is not https", "Transport error: boom"]⟩⟩ :
        WebsiteStatus) ∈
      check_many ["http://a"] 1 0 (Except.error "down")
        (fun _ _ => (RequestOutcome.errTransport "boom", 5)) := by decide
  have hts := h.1 _ hmem
  decide

/-! ## Claim C8 — batch statistics -/

theorem countP_status_partition (l : List WebsiteStatus) :
    l.countP (fun r => r.status.isSuccess) + l.countP (fun r => r.status.isHttpError) +
      l.countP (fun r => r.status.isTransport) = l.length := by
  induction l with
  | nil => rfl
  | cons x t ih =>
    have e1 : x.status.isSuccess = true ∨ x.status.isSuccess = false := by
      rcases x.status.isSuccess <;> simp
    rcases hx : x.status with c | c | m
    · have h1 : x.status.isSuccess = true := by rw [hx]; rfl
      have h2 : x.status.isHttpError = false := by rw [hx]; rfl
      have h3 : x.status.isTransport = false := by rw [hx]; rfl
      simp only [List.countP_cons, h1, h2, h3, List.length_cons]
      simp
      omega
    · have h1 : x.status.isSuccess = false := by rw [hx]; rfl
      have h2 : x.status.isHttpError = true := by rw [hx]; rfl
      have h3 : x.status.isTransport = false := by rw [hx]; rfl
      simp only [List.countP_cons, h1, h2, h3, List.length_cons]
      simp
      omega
    · have h1 : x.status.isSuccess = false := by rw [hx]; rfl
      have h2 : x.status.isHttpError = false := by rw [hx]; rfl
      have h3 : x.status.isTransport = true := by rw [hx]; rfl
      simp only [List.countP_cons, h1, h2, h3, List.length_cons]
      simp
      omega

/-- C8: `Stats::compute` returns `total` equal to the list length, counts
each outcome variant into its own counter (so the three counters sum to
`total`), `avg_response_ms` equal to the sum of elapsed milliseconds divided
by `total` and `uptime_pct` equal to `successes * 100 / total` for non-empty
input, and the all-zero record on the empty list. -/
theorem stats_compute_spec (results : List WebsiteStatus) :
    (Stats.compute results).total = results.length ∧
    (Stats.compute results).successes = results.countP (fun r => r.status.isSuccess) ∧
    (Stats.compute results).http_errors = results.countP (fun r => r.status.isHttpError) ∧
    (Stats.compute results).transport_errors =
      results.countP (fun r => r.status.isTransport) ∧
    (Stats.compute results).successes + (Stats.compute results).http_errors +
      (Stats.compute results).transport_errors = (Stats.compute results).total ∧
    (results.length ≠ 0 →
      (Stats.compute results).avg_response_ms =
        (((results.map (fun r => r.response_time)).sum : ℚ) / (results.length : ℚ)) ∧
      (Stats.compute results).uptime_pct =
        ((results.countP (fun r => r.status.isSuccess) : ℚ) * 100 / (results.length : ℚ))) ∧
    Stats.compute [] = ⟨0, 0, 0, 0, 0, 0⟩ := by
  unfold Stats.compute
  by_cases h : results.length = 0
  · rw [List.length_eq_zero] at h
    subst h
    refine ⟨rfl, rfl, rfl, rfl, rfl, ?_, rfl⟩
    intro hc
    exact absurd rfl hc
  · rw [if_neg h]
    refine ⟨rfl, rfl, rfl, rfl, countP_status_partition results, ?_, rfl⟩
    intro _
    exact ⟨rfl, rfl⟩

/-- Witness for C8 on a concrete two-element batch: one success at 10 ms and
one transport error at 20 ms give average 15 ms and 50% uptime. -/
theorem stats_compute_spec_witness :
    (Stats.compute
      [⟨"https://a", CheckStatus.Success 200, 10, "t", ⟨true, true, true, []⟩⟩,
       ⟨"https://b", CheckStatus.Transport "x", 20, "t", ⟨false, false, true, []⟩⟩]).total
      = 2 ∧
    (Stats.compute
      [⟨"https://a", CheckStatus.Success 200, 10, "t", ⟨true, true, true, []⟩⟩,
       ⟨"https://b", CheckStatus.Transport "x", 20, "t", ⟨false, false, true, []⟩⟩]).avg_response_ms
      = 15 ∧
    (Stats.compute
      [⟨"https://a", CheckStatus.Success 200, 10, "t", ⟨true, true, true, []⟩⟩,
       ⟨"https://b", CheckStatus.Transport "x", 20, "t", ⟨false, false, true, []⟩⟩]).uptime_pct
      = 50 := by
  have h := stats_compute_spec
    [⟨"https://a", CheckStatus.Success 200, 10, "t", ⟨true, true, true, []⟩⟩,
     ⟨"https://b", CheckStatus.Transport "x", 20, "t", ⟨false, false, true, []⟩⟩]
  have hne : ([⟨"https://a", CheckStatus.Success 200, 10, "t", ⟨true, true, true, []⟩⟩,
      ⟨"https://b", CheckStatus.Transport "x", 20, "t", ⟨false, false, true, []⟩⟩] :
      List WebsiteStatus).length ≠ 0 := by decide
  refine ⟨h.1, ?_, ?_⟩
  · rw [(h.2.2.2.2.2.1 hne).1]
    norm_num
  · rw [(h.2.2.2.2.2.1 hne).2]
    norm_num [List.countP_cons, List.countP_nil, CheckStatus.isSuccess]

/-! ## Claim C3 — outcome classification of the probe -/

/-- C3: `do_request` classifies every request outcome into exactly one of the
three variants: the client's `Ok(resp)` (a 2xx response) becomes
`Success(code)` with full validation run against the response; a non-2xx
response (`Err(Error::Status(code, resp))`) becomes `HttpError(code)` with
full validation still run; any failure to obtain an interpretable response
becomes `Transport(message)`, with `header_ok` and `body_ok` forced to
`false` and a transport issue appended to the report. -/
theorem do_request_classification (url : String) (cfg : Config) (elapsed : Nat) :
    (∀ resp, do_request url cfg (RequestOutcome.ok resp) elapsed =
      (CheckStatus.Success resp.status, elapsed,
        validate_response resp cfg (enforce_https_policy url ValidationReport.default cfg))) ∧
    (∀ code resp, do_request url cfg (RequestOutcome.errStatus code resp) elapsed =
      (CheckStatus.HttpError code, elapsed,
        validate_response resp cfg (enforce_https_policy url ValidationReport.default cfg))) ∧
    (∀ msg,
      (do_request url cfg (RequestOutcome.errTransport msg) elapsed).1 =
        CheckStatus.Transport msg ∧
      (do_request url cfg (RequestOutcome.errTransport msg) elapsed).2.2.header_ok = false ∧
      (do_request url cfg (RequestOutcome.errTransport msg) elapsed).2.2.body_ok = false ∧
      (do_request url cfg (RequestOutcome.errTransport msg) elapsed).2.2.issues =
        (enforce_https_policy url ValidationReport.default cfg).issues ++
          ["Transport error: " ++ msg]) :=
  ⟨fun _ => rfl, fun _ _ => rfl, fun _ => ⟨rfl, rfl, rfl, rfl⟩⟩

/-! ## Claim C7 — HTTPS policy -/

/-- C7: when `https_required` is set and the URL is not https,
`enforce_https_policy` records `https_policy_ok = false` and appends an
issue containing "HTTPS required"; an https URL gets `https_policy_ok =
true` with no issue appended; and the policy never short-circuits the
probe — header/body validation still runs whenever a response exists,
whatever the URL's scheme. -/
theorem https_policy_spec (url : String) (cfg : Config) (report : ValidationReport) :
    (cfg.https_required = true → startsWithStr url "https://" = false →
      enforce_https_policy url report cfg =
        { report with
          https_policy_ok := false
          issues := report.issues ++ ["HTTPS required by policy, but URL is not https"] } ∧
      containsSub "HTTPS required by policy, but URL is not https".data
        "HTTPS required".data = true) ∧
    (startsWithStr url "https://" = true →
      enforce_https_policy url report cfg = { report with https_policy_ok := true }) ∧
    (∀ resp elapsed,
      (do_request url cfg (RequestOutcome.ok resp) elapsed).2.2 =
        validate_response resp cfg (enforce_https_policy url ValidationReport.default cfg)) ∧
    (∀ code resp elapsed,
      (do_request url cfg (RequestOutcome.errStatus code resp) elapsed).2.2 =
        validate_response resp cfg (enforce_https_policy url ValidationReport.default cfg)) := by
  refine ⟨?_, ?_, fun _ _ => rfl, fun _ _ _ => rfl⟩
  · intro hreq hns
    refine ⟨?_, by decide⟩
    simp [enforce_https_policy, hreq, hns]
  · intro hs
    unfold enforce_https_policy
    rcases cfg.https_required with _ | _
    · simp
    · simp [hs]

/-- Witness for C7 at the spec's own example inputs. -/
theorem https_policy_spec_witness :
    enforce_https_policy "http://example.com" ValidationReport.default Config.default =
      { ValidationReport.default with
        https_policy_ok := false
        issues := ["HTTPS required by policy, but URL is not https"] } ∧
    enforce_https_policy "https://example.com" ValidationReport.default Config.default =
      { ValidationReport.default with https_policy_ok := true } := by
  constructor
  · have h := (https_policy_spec "http://example.com" Config.default
      ValidationReport.default).1 rfl (by decide)
    simpa using h.1
  · exact (https_policy_spec "https://example.com" Config.default
      ValidationReport.default).2.1 (by decide)

/-! ## Claim C10 — body read failure -/

/-- C10: when reading the response body fails partway with an I/O error,
`validate_body` sets `body_ok` to false and appends one issue starting with
"Failed to read response body:", and no body-content rule is evaluated for
that response (the report is fully determined without consulting the rules'
match results); `validate_response` routes to `validate_body` exactly when
body rules are configured. -/
theorem body_read_error_spec (resp : Response) (cfg : Config)
    (report : ValidationReport) (e : String)
    (hb : resp.body = Except.error e) :
    validate_body resp cfg report =
      { report with
        body_ok := false
        issues := report.issues ++ ["Failed to read response body: " ++ e] } ∧
    ((!cfg.body_contains_all.isEmpty || !cfg.body_contains_any.isEmpty) = true →
      validate_response resp cfg report =
        { validate_headers resp cfg report with
          body_ok := false
          issues := (validate_headers resp cfg report).issues ++
            ["Failed to read response body: " ++ e] }) := by
  constructor
  · unfold validate_body
    rw [hb]
  · intro hrules
    unfold validate_response
    simp only [hrules, if_pos]
    unfold validate_body
    rw [hb]

/-- Witness for C10: a configured body rule plus a mid-read failure. -/
theorem body_read_error_spec_witness :
    validate_body ⟨404, [], Except.error "unexpected EOF"⟩
      { Config.default with body_contains_all := ["Welcome"] }
      ValidationReport.default =
      { ValidationReport.default with
        body_ok := false
        issues := ["Failed to read response body: unexpected EOF"] } := by
  have h := (body_read_error_spec ⟨404, [], Except.error "unexpected EOF"⟩
    { Config.default with body_contains_all := ["Welcome"] }
    ValidationReport.default "unexpected EOF" rfl).1
  simpa using h

/-! ## Claim C5 — body validation -/

theorem body_all_fold (text : String) (l : List String) :
    ∀ acc : List String,
    l.foldl (fun acc needle =>
      if !contains_token text needle then
        acc ++ ["Body missing required text: '" ++ needle ++ "'"]
      else acc) acc =
    acc ++ (l.filter (fun n => !contains_token text n)).map
      (fun n => "Body missing required text: '" ++ n ++ "'") := by
  induction l with
  | nil =>
    intro acc
    simp
  | cons x t ih =>
    intro acc
    rw [List.foldl_cons]
    by_cases hx : contains_token text x = true
    · rw [if_neg (by simp [hx]), ih]
      simp [List.filter_cons, hx]
    · rw [if_pos (by simp [Bool.not_eq_true] at hx ⊢; exact hx), ih]
      rw [Bool.not_eq_true] at hx
      simp [List.filter_cons, hx]

theorem body_all_ok_iff (text : String) (l : List String) :
    ((l.filter (fun n => !contains_token text n)).map
      (fun n => "Body missing required text: '" ++ n ++ "'")).isEmpty =
    l.all (fun n => contains_token text n) := by
  rw [Bool.eq_iff_iff]
  simp [List.isEmpty_iff, List.map_eq_nil_iff, List.filter_eq_nil_iff, List.all_eq_true]

/-- C5: each `body_contains_all` entry that does not token-match the body
text records its own "Body missing required text" issue; a non-empty
`body_contains_any` with no token-matching entry records the single
"Body did not contain ANY of" issue; `body_ok` is true exactly when every
ALL-entry matches and, when ANY-entries exist, at least one matches; with
no body rules configured, `validate_response` sets `body_ok = true`
unconditionally and never reads the body (its result is independent of the
body-read outcome). -/
theorem body_validation_spec (text : String) (cfg : Config) :
    (check_body_text text cfg).2 =
      ((cfg.body_contains_all.filter (fun n => !contains_token text n)).map
        (fun n => "Body missing required text: '" ++ n ++ "'")) ++
      (if cfg.body_contains_any.isEmpty = false ∧
          cfg.body_contains_any.any (fun n => contains_token text n) = false then
        ["Body did not contain ANY of: " ++ formatDebugList cfg.body_contains_any]
      else []) ∧
    (check_body_text text cfg).1 =
      (cfg.body_contains_all.all (fun n => contains_token text n) &&
        (cfg.body_contains_any.isEmpty ||
          cfg.body_contains_any.any (fun n => contains_token text n))) ∧
    (cfg.body_contains_all = [] → cfg.body_contains_any = [] →
      ∀ st hs b1 b2 report,
        validate_response ⟨st, hs, b1⟩ cfg report =
          validate_response ⟨st, hs, b2⟩ cfg report ∧
        (validate_response ⟨st, hs, b1⟩ cfg report).body_ok = true) := by
  have hfold := body_all_fold text cfg.body_contains_all []
  have hok := body_all_ok_iff text cfg.body_contains_all
  refine ⟨?_, ?_, ?_⟩
  · unfold check_body_text
    simp only [hfold, List.nil_append]
    by_cases hany : cfg.body_contains_any.isEmpty = true
    · simp [hany]
    · rw [Bool.not_eq_true] at hany
      by_cases hhit : cfg.body_contains_any.any (fun n => contains_token text n) = true
      · simp [hany, hhit]
      · rw [Bool.not_eq_true] at hhit
        simp [hany, hhit]
  · unfold check_body_text
    simp only [hfold, List.nil_append]
    by_cases hany : cfg.body_contains_any.isEmpty = true
    · simp [hany, hok]
    · rw [Bool.not_eq_true] at hany
      by_cases hhit : cfg.body_contains_any.any (fun n => contains_token text n) = true
      · simp [hany, hhit, hok]
      · rw [Bool.not_eq_true] at hhit
        simp [hany, hhit, hok]
  · intro h1 h2 st hs b1 b2 report
    unfold validate_response
    rw [h1, h2]
    exact ⟨rfl, rfl⟩

/-- Witness for C5: the default config has no body rules, so validation of a
response whose body read would fail equals validation of one whose body
reads fine, with `body_ok = true`. -/
theorem body_validation_spec_witness :
    validate_response ⟨200, [("Content-Type", "text/html")], Except.error "E"⟩
        Config.default ValidationReport.default =
      validate_response ⟨200, [("Content-Type", "text/html")], Except.ok "hi"⟩
        Config.default ValidationReport.default ∧
    (validate_response ⟨200, [("Content-Type", "text/html")], Except.error "E"⟩
        Config.default ValidationReport.default).body_ok = true :=
  (body_validation_spec "" Config.default).2.2 rfl rfl
    200 [("Content-Type", "text/html")] (Except.error "E") (Except.ok "hi")
    ValidationReport.default

/-! ## Claim C6 — header validation -/

theorem check_fold_spec {α : Type} (step : Bool × List String → α → Bool × List String)
    (pass : α → Bool) (msg : α → String)
    (hstep : ∀ st x, step st x = if pass x then st else (false, st.2 ++ [msg x])) :
    ∀ (l : List α) (b : Bool) (is : List String),
      l.foldl step (b, is) =
        (b && l.all pass, is ++ (l.filter (fun x => !pass x)).map msg) := by
  intro l
  induction l with
  | nil =>
    intro b is
    simp
  | cons x t ih =>
    intro b is
    rw [List.foldl_cons, hstep]
    by_cases hx : pass x = true
    · rw [if_pos hx, ih]
      simp [List.all_cons, List.filter_cons, hx]
    · rw [Bool.not_eq_true] at hx
      rw [if_neg (by simp [hx]), ih]
      simp [List.all_cons, List.filter_cons, hx]

/-- Pass condition of one `required_headers` check (spec §4.1: the header is
present). -/
def requiredHeaderOk (resp : Response) (cfg : Config) : Bool :=
  cfg.required_headers.all (fun h => (resp.header h).isSome)

/-- Issues the `required_headers` loop records. -/
def requiredHeaderIssues (resp : Response) (cfg : Config) : List String :=
  (cfg.required_headers.filter (fun h => !(resp.header h).isSome)).map
    (fun h => "Missing header: " ++ h)

/-- Pass condition of the Content-Type allowlist check. -/
def contentTypeOk (resp : Response) (cfg : Config) : Bool :=
  cfg.content_type_allow.isEmpty ||
    match resp.header "Content-Type" with
    | some ct => cfg.content_type_allow.any (fun allowed =>
        startsWithStr (toAsciiLower ct) (toAsciiLower allowed))
    | none => false

/-- Issue the Content-Type allowlist check records: a missing header is a
distinct issue from a present-but-disallowed one. -/
def contentTypeIssues (resp : Response) (cfg : Config) : List String :=
  if cfg.content_type_allow.isEmpty then []
  else
    match resp.header "Content-Type" with
    | some ct =>
      if cfg.content_type_allow.any (fun allowed =>
          startsWithStr (toAsciiLower ct) (toAsciiLower allowed)) then []
      else ["Content-Type not allowed: " ++ ct]
    | none => ["Missing header: Content-Type"]

/-- Pass condition of one `header_equals` pair: exact value equality. -/
def headerEqPass (resp : Response) (p : String × String) : Bool :=
  match resp.header p.1 with
  | some v => v == p.2
  | none => false

/-- Issue one failing `header_equals` pair records. -/
def headerEqMsg (resp : Response) (p : String × String) : String :=
  match resp.header p.1 with
  | some v =>
    "Header " ++ p.1 ++ " mismatch: got '" ++ v ++ "', expected '" ++ p.2 ++ "'"
  | none => "Missing header: " ++ p.1

/-- Pass condition of one `header_contains` pair: substring containment. -/
def headerContainsPass (resp : Response) (p : String × String) : Bool :=
  match resp.header p.1 with
  | some v => containsSub v.data p.2.data
  | none => false

/-- Issue one failing `header_contains` pair records. -/
def headerContainsMsg (resp : Response) (p : String × String) : String :=
  match resp.header p.1 with
  | some v =>
    "Header " ++ p.1 ++ " does not contain '" ++ p.2 ++ "': got '" ++ v ++ "'"
  | none => "Missing header: " ++ p.1

/-- C6: header validation runs every rule and accumulates every violation:
`issues` gains, in order, the missing-required-header issues, the
Content-Type allowlist issue (missing header distinct from disallowed), the
`header_equals` mismatch/missing issues, and the `header_contains` issues —
no failing check stops the later checks — and `header_ok` is true exactly
when all four groups of checks pass. -/
theorem header_validation_spec (resp : Response) (cfg : Config)
    (report : ValidationReport) :
    (validate_headers resp cfg report).header_ok =
      (requiredHeaderOk resp cfg && contentTypeOk resp cfg &&
        cfg.header_equals.all (headerEqPass resp) &&
        cfg.header_contains.all (headerContainsPass resp)) ∧
    (validate_headers resp cfg report).issues =
      report.issues ++ requiredHeaderIssues resp cfg ++ contentTypeIssues resp cfg ++
        (cfg.header_equals.filter (fun p => !headerEqPass resp p)).map
          (headerEqMsg resp) ++
        (cfg.header_contains.filter (fun p => !headerContainsPass resp p)).map
          (headerContainsMsg resp) ∧
    (validate_headers resp cfg report).body_ok = report.body_ok ∧
    (validate_headers resp cfg report).https_policy_ok = report.https_policy_ok := by
  have hfold1 := check_fold_spec
    (fun st h => match resp.header h with
      | none => (false, st.2 ++ ["Missing header: " ++ h])
      | some _ => st)
    (fun h => (resp.header h).isSome)
    (fun h => "Missing header: " ++ h)
    (by
      intro st x
      rcases hx : resp.header x with _ | v <;> simp [hx])
    cfg.required_headers true report.issues
  have hfold2 := check_fold_spec
    (fun st p => match resp.header p.1 with
      | some v =>
        if v == p.2 then st
        else (false, st.2 ++
          ["Header " ++ p.1 ++ " mismatch: got '" ++ v ++ "', expected '" ++ p.2 ++ "'"])
      | none => (false, st.2 ++ ["Missing header: " ++ p.1]))
    (headerEqPass resp) (headerEqMsg resp)
    (by
      intro st p
      rcases hx : resp.header p.1 with _ | v
      · simp [headerEqPass, headerEqMsg, hx]
      · by_cases hv : (v == p.2) = true
        · simp [headerEqPass, headerEqMsg, hx, hv]
        · rw [Bool.not_eq_true] at hv
          simp [headerEqPass, headerEqMsg, hx, hv])
    cfg.header_equals
  have hfold3 := check_fold_spec
    (fun st p => match resp.header p.1 with
      | some v =>
        if containsSub v.data p.2.data then st
        else (false, st.2 ++
          ["Header " ++ p.1 ++ " does not contain '" ++ p.2 ++ "': got '" ++ v ++ "'"])
      | none => (false, st.2 ++ ["Missing header: " ++ p.1]))
    (headerContainsPass resp) (headerContainsMsg resp)
    (by
      intro st p
      rcases hx : resp.header p.1 with _ | v
      · simp [headerContainsPass, headerContainsMsg, hx]
      · by_cases hv : containsSub v.data p.2.data = true
        · simp [headerContainsPass, headerContainsMsg, hx, hv]
        · rw [Bool.not_eq_true] at hv
          simp [headerContainsPass, headerContainsMsg, hx, hv])
    cfg.header_contains
  unfold validate_headers
  simp only [hfold1]
  by_cases hempty : cfg.content_type_allow.isEmpty = true
  · simp only [hempty, Bool.not_true, Bool.false_eq_true, if_false,
      Bool.true_and, hfold2, hfold3]
    refine ⟨?_, ?_, trivial, trivial⟩
    · simp [requiredHeaderOk, contentTypeOk, hempty, Bool.and_assoc]
    · simp [requiredHeaderIssues, contentTypeIssues, hempty, List.append_assoc]
  · rw [Bool.not_eq_true] at hempty
    rcases hct : resp.header "Content-Type" with _ | ct
    · simp only [hempty, Bool.not_false, if_true, hct, Bool.true_and, hfold2, hfold3]
      refine ⟨?_, ?_, trivial, trivial⟩
      · simp [requiredHeaderOk, contentTypeOk, hempty, hct, Bool.and_assoc]
      · simp [requiredHeaderIssues, contentTypeIssues, hempty, hct, List.append_assoc]
    · by_cases hany : cfg.content_type_allow.any (fun allowed =>
        startsWithStr (toAsciiLower ct) (toAsciiLower allowed)) = true
      · simp only [hempty, Bool.not_false, if_true, hct, hany, Bool.not_true,
          Bool.false_eq_true, if_false, Bool.true_and, hfold2, hfold3]
        refine ⟨?_, ?_, trivial, trivial⟩
        · simp [requiredHeaderOk, contentTypeOk, hempty, hct, hany, Bool.and_assoc]
        · simp [requiredHeaderIssues, contentTypeIssues, hempty, hct, hany,
            List.append_assoc]
      · rw [Bool.not_eq_true] at hany
        simp only [hempty, Bool.not_false, if_true, hct, hany, Bool.true_and,
          hfold2, hfold3]
        refine ⟨?_, ?_, trivial, trivial⟩
        · simp [requiredHeaderOk, contentTypeOk, hempty, hct, hany, Bool.and_assoc]
        · simp [requiredHeaderIssues, contentTypeIssues, hempty, hct, hany,
            List.append_assoc]

/-! ## Claim C4 — token matching -/

/-- No ASCII-alphanumeric character immediately before the occurrence: the
text before it is empty or ends in a non-alphanumeric character. -/
def leftBoundaryFree (pre : List Char) : Prop :=
  ∀ c, pre.getLast? = some c → isAsciiAlphanumeric c = false

/-- No ASCII-alphanumeric character immediately after the occurrence. -/
def rightBoundaryFree (suf : List Char) : Prop :=
  ∀ c, suf.head? = some c → isAsciiAlphanumeric c = false

theorem right_match_iff (needle suf : List Char) :
    (match (needle ++ suf).drop needle.length with
     | [] => true
     | c :: _ => !isAsciiAlphanumeric c) = true ↔ rightBoundaryFree suf := by
  rw [List.drop_left]
  rcases suf with _ | ⟨c, cs⟩
  · simp [rightBoundaryFree]
  · simp [rightBoundaryFree]

theorem containsSub_iff_infix (needle : List Char) :
    ∀ hay, containsSub hay needle = true ↔ needle <:+: hay := by
  intro hay
  induction hay with
  | nil =>
    rw [containsSub]
    simp [List.isPrefixOf_iff_prefix, List.prefix_nil, List.infix_nil]
  | cons c t ih =>
    rw [containsSub]
    simp only [Bool.or_eq_true, List.isPrefixOf_iff_prefix, ih]
    exact (List.infix_cons_iff).symm

theorem tokenScan_iff (needle : List Char) (hne : needle ≠ []) :
    ∀ (t : List Char) (prev : Bool),
      tokenScan needle prev t = true ↔
        ∃ pre suf, t = pre ++ needle ++ suf ∧
          (match pre.getLast? with
           | none => prev = false
           | some c => isAsciiAlphanumeric c = false) ∧
          rightBoundaryFree suf := by
  intro t
  induction t with
  | nil =>
    intro prev
    rw [tokenScan]
    constructor
    · intro h
      exfalso
      rcases needle with _ | ⟨c, nt⟩
      · exact hne rfl
      · simp [List.isPrefixOf] at h
    · rintro ⟨pre, suf, habs, -, -⟩
      exfalso
      rcases needle with _ | ⟨c, nt⟩
      · exact hne rfl
      · simp at habs
  | cons c rest ih =>
    intro prev
    rw [tokenScan]
    simp only [Bool.or_eq_true, Bool.and_eq_true, Bool.not_eq_true']
    constructor
    · rintro (⟨⟨hpre, hprev⟩, hright⟩ | hrec)
      · rw [List.isPrefixOf_iff_prefix] at hpre
        obtain ⟨suf, hsuf⟩ := hpre
        refine ⟨[], suf, ?_, ?_, ?_⟩
        · rw [← hsuf]
          simp
        · simpa using hprev
        · rw [← hsuf] at hright
          exact (right_match_iff needle suf).mp hright
      · obtain ⟨pre, suf, heq, hleft, hright⟩ := (ih (isAsciiAlphanumeric c)).mp hrec
        refine ⟨c :: pre, suf, by rw [heq]; simp, ?_, hright⟩
        rcases pre with _ | ⟨p, ps⟩
        · simpa using hleft
        · simpa [List.getLast?_cons_cons] using hleft
    · rintro ⟨pre, suf, heq, hleft, hright⟩
      rcases pre with _ | ⟨p, ps⟩
      · left
        simp only [List.nil_append] at heq
        refine ⟨⟨?_, ?_⟩, ?_⟩
        · rw [List.isPrefixOf_iff_prefix]
          exact ⟨suf, heq.symm⟩
        · simpa using hleft
        · rw [heq]
          exact (right_match_iff needle suf).mpr hright
      · right
        apply (ih (isAsciiAlphanumeric c)).mpr
        have hc : c = p ∧ rest = ps ++ needle ++ suf := by
          simpa using heq
        obtain ⟨hcp, hrest⟩ := hc
        refine ⟨ps, suf, hrest, ?_, hright⟩
        rcases ps with _ | ⟨q, qs⟩
        · subst hcp
          simpa using hleft
        · simpa [List.getLast?_cons_cons] using hleft

/-- C4: `contains_token` accepts the empty needle always; a needle with any
non-alphanumeric character falls back to plain substring search; an
alphanumeric needle matches exactly when some occurrence in the text has no
ASCII-alphanumeric character immediately before its start or after its end.
In particular "one" does not token-match inside "none present" while "two"
token-matches in "zero and two present". -/
theorem contains_token_spec (text needle : String) :
    contains_token text "" = true ∧
    (needle.data.all isAlphanumeric = false →
      (contains_token text needle = true ↔ needle.data <:+: text.data)) ∧
    (needle.data ≠ [] → needle.data.all isAlphanumeric = true →
      (contains_token text needle = true ↔
        ∃ pre suf, text.data = pre ++ needle.data ++ suf ∧
          leftBoundaryFree pre ∧ rightBoundaryFree suf)) ∧
    contains_token "none present" "one" = false ∧
    contains_token "zero and two present" "two" = true := by
  refine ⟨rfl, ?_, ?_, by decide, by decide⟩
  · intro hall
    have hne : needle.data ≠ [] := by
      intro h0
      rw [h0] at hall
      simp at hall
    unfold contains_token
    rw [if_neg (by simp [List.isEmpty_iff, hne]), if_pos (by simp [hall])]
    exact containsSub_iff_infix needle.data text.data
  · intro hne hall
    have hbridge : ∀ pre : List Char,
        (match pre.getLast? with
         | none => (false : Bool) = false
         | some c => isAsciiAlphanumeric c = false) ↔ leftBoundaryFree pre := by
      intro pre
      rcases hp : pre.getLast? with _ | c
      · simp [leftBoundaryFree, hp]
      · simp [leftBoundaryFree, hp]
    unfold contains_token
    rw [if_neg (by simp [List.isEmpty_iff, hne]), if_neg (by simp [hall])]
    rw [tokenScan_iff needle.data hne text.data false]
    apply exists_congr
    intro pre
    apply exists_congr
    intro suf
    exact and_congr_right fun _ => and_congr_left fun _ => hbridge pre

/-- Witness for C4 at the spec's example inputs: the token-match
characterisation at needle "two" and the substring fallback at the
punctuated needle "max-age=". -/
theorem contains_token_spec_witness :
    (contains_token "zero and two present" "two" = true ↔
      ∃ pre suf, "zero and two present".data = pre ++ "two".data ++ suf ∧
        leftBoundaryFree pre ∧ rightBoundaryFree suf) ∧
    (contains_token "cache-control: max-age=60" "max-age=" = true ↔
      "max-age=".data <:+: "cache-control: max-age=60".data) :=
  ⟨(contains_token_spec "zero and two present" "two").2.2.1 (by decide) (by decide),
   (contains_token_spec "cache-control: max-age=60" "max-age=").2.1 (by decide)⟩

end WebsiteChecker
